import Mathlib

/-!
Verification of the two-stage video-analysis pipeline of this repository.

Part A embeds the polling, retry and caching logic of
`src/agents/schswrestling-main/optimized_app.py` (the hardened variant).
Part B embeds the Stage 2 extraction and report-rendering logic of
`src/gradiocoach.py` (the multi-chart variant).

Machine strings are Lean `String`; Python `time.sleep` amounts are tracked
as natural-number second counts; Python exceptions are explicit values.
-/

namespace OptimizedApp

/-- Constant `MAX_VIDEO_PROCESSING_TIME = 180` from optimized_app.py line 42. -/
def MAX_VIDEO_PROCESSING_TIME : Nat := 180

/-- Constant `API_MAX_RETRIES = 3` from optimized_app.py line 53. -/
def API_MAX_RETRIES : Nat := 3

/-- Constant `API_RETRY_DELAY = 2` (seconds) from optimized_app.py line 54. -/
def API_RETRY_DELAY : Nat := 2

/-- Outcome of the status-polling while-loop of `analyze_wrestling_video`
(optimized_app.py lines 1048-1067): either the loop exits with the final
state name, or the elapsed-time check raises `TimeoutError`. -/
inductive PollResult where
  | ready (state : String)
  | timeout
deriving DecidableEq

/-- The while-loop
`while processed_video.state.name == "PROCESSING": ...` of
`analyze_wrestling_video`.  `seq k` is the state name observed at the k-th
check of the loop condition; each iteration sleeps one second before the
next `get_file` call, so elapsed wall-clock time at check `k` is `k`
seconds.  The loop body raises `TimeoutError` when
`elapsed > MAX_VIDEO_PROCESSING_TIME`.  The `fuel` argument only bounds the
recursion; with the fuel passed by `pollVideoProcessing` the fuel-zero
branch is unreachable, because the timeout check fires at `k = 181` at the
latest. -/
def pollFrom (seq : Nat → String) : Nat → Nat → PollResult
  | _, 0 => .timeout
  | k, fuel + 1 =>
    if seq k = "PROCESSING" then
      if k > MAX_VIDEO_PROCESSING_TIME then .timeout
      else pollFrom seq (k + 1) fuel
    else .ready (seq k)

/-- Entry point of the polling loop, starting at elapsed time zero. -/
def pollVideoProcessing (seq : Nat → String) : PollResult :=
  pollFrom seq 0 (MAX_VIDEO_PROCESSING_TIME + 2)

/-- How `analyze_wrestling_video` leaves the upload/poll phase:
`generated` means the handle reached the code acceptance check and the
generation request is issued with it; the other two constructors are the
`TimeoutError` raised by the loop and the generic `Exception` raised by the
post-loop state check (optimized_app.py lines 1138-1142). -/
inductive VideoAnalysisOutcome where
  | generated (state : String)
  | timeoutError
  | genericError (msg : String)
deriving DecidableEq

/-- The poll loop of `analyze_wrestling_video` followed by the post-loop
check `if processed_video.state.name != "SUCCEEDED": raise Exception(...)`
(optimized_app.py lines 1138-1142).  Only when the state name equals
the literal "SUCCEEDED" is the handle passed to `model.generate_content`. -/
def analyzeVideoPhase (seq : Nat → String) : VideoAnalysisOutcome :=
  match pollVideoProcessing seq with
  | .timeout => .timeoutError
  | .ready s =>
    if s = "SUCCEEDED" then .generated s
    else .genericError (("Video processing failed with state: ") ++ s)

/-- A Python exception value as far as `safe_api_call` inspects it: whether
it is a `GoogleAPIError`, and its text `str(e)`. -/
structure PyError where
  isGoogleAPIError : Bool
  msg : String
deriving DecidableEq

/-- Substring test: Python `needle in hay` on strings, over char lists. -/
def strContains (needle : List Char) : List Char → Bool
  | [] => needle.isPrefixOf []
  | c :: t => needle.isPrefixOf (c :: t) || strContains needle t

/-- Python `str.lower()` restricted to the ASCII range exercised here. -/
def pyLower (s : String) : String := String.mk (s.toList.map Char.toLower)

/-- The rate-limit classification of `safe_api_call`
(optimized_app.py line 958):
`"quota" in str(e).lower() or "rate" in str(e).lower()`, reached only in
the `except GoogleAPIError` handler. -/
def isRateLimitError (e : PyError) : Bool :=
  e.isGoogleAPIError &&
    (strContains (("quota").toList) (pyLower e.msg).toList ||
     strContains (("rate").toList) (pyLower e.msg).toList)

/-- How one call to `safe_api_call` ends: a returned value, a propagated
exception, or the implicit `return None` after the for-loop (unreachable
from attempt 0, kept for fidelity). -/
inductive CallResult (α : Type) where
  | ok (v : α)
  | raised (e : PyError)
  | noneReturn
deriving DecidableEq

/-- Instrumented result of `safe_api_call`: the outcome, the total seconds
slept in backoff, and the number of invocations of the wrapped function. -/
structure CallTrace (α : Type) where
  result : CallResult α
  totalSleep : Nat
  calls : Nat
deriving DecidableEq

/-- The `for attempt in range(max_retries)` loop of `safe_api_call`
(optimized_app.py lines 949-970).  `func attempt` is the behaviour of the
wrapped call on the given attempt: `Except.ok` for a normal return,
`Except.error` for a raised exception.  A `GoogleAPIError` whose text
contains "quota" or "rate" is retried after `time.sleep(retry_delay *
(attempt + 1))` while `attempt < max_retries - 1`; every other exception is
re-raised at once.  The last pattern argument counts the remaining loop
iterations. -/
def safeApiLoop (func : Nat → Except PyError α) :
    Nat → Nat → Nat → Nat → CallTrace α
  | _, sleepAcc, calls, 0 => ⟨.noneReturn, sleepAcc, calls⟩
  | attempt, sleepAcc, calls, rem + 1 =>
    match func attempt with
    | .ok v => ⟨.ok v, sleepAcc, calls + 1⟩
    | .error e =>
      if isRateLimitError e ∧ attempt < API_MAX_RETRIES - 1 then
        safeApiLoop func (attempt + 1)
          (sleepAcc + API_RETRY_DELAY * (attempt + 1)) (calls + 1) rem
      else ⟨.raised e, sleepAcc, calls + 1⟩

/-- `safe_api_call(func, ...)` from optimized_app.py lines 949-970. -/
def safe_api_call (func : Nat → Except PyError α) : CallTrace α :=
  safeApiLoop func 0 0 0 API_MAX_RETRIES

/-- The cache fingerprint of `analyze_wrestling_video`
(optimized_app.py line 1007): `cache_key = f"{video_path}_{user_query}"`. -/
def cache_key (video_path user_query : String) : String :=
  video_path ++ ("_") ++ user_query

/-- The slice of the Streamlit session state that the caching logic reads
and writes (initialised in `init_session_state`, optimized_app.py lines
558-561): a single `cache_id` slot, the last query, the last analysis
result, and the hit counter. -/
structure WrestlingSession where
  cache_id : Option String
  last_query : Option String
  analysis_result : Option String
  cache_hits : Nat
deriving DecidableEq

/-- The defaults of `init_session_state`: every slot `None`, zero hits. -/
def initSession : WrestlingSession := ⟨none, none, none, 0⟩

/-- Python truthiness of the optional string
`st.session_state.analysis_result`: `None` and the empty string are falsy. -/
def pyTruthyOptStr : Option String → Bool
  | none => false
  | some s => s != ("")

/-- Observable outcome of one run of `analyze_wrestling_video`: the
returned report text, whether it came from the cache check, and how many
times the remote upload/poll/generation pipeline was entered (1 on a cache
miss, 0 on a hit). -/
structure AnalysisRun where
  result : String
  fromCache : Bool
  remoteCalls : Nat
deriving DecidableEq

/-- `analyze_wrestling_video(video_path, user_query)` restricted to its
cache behaviour (optimized_app.py lines 1006-1020), with the remote
pipeline modelled as succeeding with report text `remoteText` on a miss.
On a hit (`st.session_state.cache_id == cache_key and
st.session_state.analysis_result`) the stored result is returned, the hit
counter is incremented, and the remote pipeline is not entered.  On a miss
the code stores `cache_id = cache_key` and `last_query = user_query` and
runs the full pipeline. -/
def analyze_wrestling_video (s : WrestlingSession)
    (video_path user_query remoteText : String) :
    WrestlingSession × AnalysisRun :=
  let key := cache_key video_path user_query
  if s.cache_id = some key ∧ pyTruthyOptStr s.analysis_result then
    ({ s with cache_hits := s.cache_hits + 1 },
     { result := s.analysis_result.getD (""), fromCache := true,
       remoteCalls := 0 })
  else
    ({ s with cache_id := some key, last_query := some user_query },
     { result := remoteText, fromCache := false, remoteCalls := 1 })

/-- The analyze-button handler (optimized_app.py lines 1616-1638): it
clears `analysis_result` when the query changed
(`if st.session_state.last_query != user_query`), calls
`analyze_wrestling_video`, and stores the returned text in
`st.session_state.analysis_result`. -/
def clickAnalyze (s : WrestlingSession)
    (video_path user_query remoteText : String) :
    WrestlingSession × AnalysisRun :=
  let s1 := if s.last_query = some user_query then s
            else { s with analysis_result := none }
  let r := analyze_wrestling_video s1 video_path user_query remoteText
  ({ r.1 with analysis_result := some r.2.result }, r.2)

end OptimizedApp

namespace OptimizedApp

/-! Helper lemmas about the cache behaviour of the analyze-button flow. -/

/-- After any run of the button handler, the single cache slot holds the
fingerprint of that run. -/
theorem clickAnalyze_cache_id (s : WrestlingSession) (vp q r : String) :
    (clickAnalyze s vp q r).1.cache_id = some (cache_key vp q) := by
  unfold clickAnalyze analyze_wrestling_video
  by_cases hq : s.last_query = some q <;>
    simp only [hq, ite_true, ite_false] <;> split <;> simp_all

/-- After any run of the button handler, `last_query` holds the query of
that run. -/
theorem clickAnalyze_last_query (s : WrestlingSession) (vp q r : String) :
    (clickAnalyze s vp q r).1.last_query = some q := by
  unfold clickAnalyze analyze_wrestling_video
  by_cases hq : s.last_query = some q
  · simp only [hq, ite_true]
    split
    · simp [hq]
    · simp
  · simp only [hq, ite_false]
    split
    · rename_i h
      exact absurd h (by simp [pyTruthyOptStr])
    · simp

/-- After any run of the button handler, `analysis_result` holds the text
that the run returned. -/
theorem clickAnalyze_stores_result (s : WrestlingSession) (vp q r : String) :
    (clickAnalyze s vp q r).1.analysis_result =
      some (clickAnalyze s vp q r).2.result := by
  unfold clickAnalyze analyze_wrestling_video
  by_cases hq : s.last_query = some q <;>
    simp only [hq, ite_true, ite_false] <;> split <;> simp

/-- When the remote pipeline produces non-empty text, the text returned by
the button handler is non-empty, whichever path produced it. -/
theorem clickAnalyze_result_nonempty (s : WrestlingSession) (vp q r : String)
    (hr : r ≠ ("")) : (clickAnalyze s vp q r).2.result ≠ ("") := by
  unfold clickAnalyze analyze_wrestling_video
  by_cases hq : s.last_query = some q <;>
    simp only [hq, ite_true, ite_false] <;> split
  · rename_i h
    obtain ⟨h1, h2⟩ := h
    simp only [pyTruthyOptStr] at h2
    match hres : s.analysis_result with
    | none => simp [hres] at h2
    | some t =>
      simp only [hres] at h2 ⊢
      simpa using h2
  · simpa using hr
  · rename_i h
    obtain ⟨h1, h2⟩ := h
    simp [pyTruthyOptStr] at h2
  · simpa using hr

/-- A run whose fingerprint matches the cache slot and whose stored result
is truthy is a cache hit: stored text returned, hit counter bumped. -/
theorem clickAnalyze_hit (s : WrestlingSession) (vp q r : String)
    (h1 : s.cache_id = some (cache_key vp q)) (h2 : s.last_query = some q)
    (h3 : pyTruthyOptStr s.analysis_result = true) :
    (clickAnalyze s vp q r).2 = ⟨s.analysis_result.getD (""), true, 0⟩ ∧
    (clickAnalyze s vp q r).1.cache_hits = s.cache_hits + 1 := by
  unfold clickAnalyze analyze_wrestling_video
  simp [h1, h2, h3]

/-- A run whose fingerprint differs from the cache slot is a miss and
enters the remote pipeline. -/
theorem clickAnalyze_miss_of_cache_id (s : WrestlingSession) (vp q r : String)
    (h : s.cache_id ≠ some (cache_key vp q)) :
    (clickAnalyze s vp q r).2 = ⟨r, false, 1⟩ := by
  unfold clickAnalyze analyze_wrestling_video
  by_cases hq : s.last_query = some q <;> simp [hq, h]

set_option maxRecDepth 4000 in
/-- C1: evaluation of the upload/poll controller of the hardened variant at
the failing input.  When the polled status leaves PROCESSING for ACTIVE,
the ready state of the remote file service (spec section 6 lists the states
as PENDING, PROCESSING, READY/ACTIVE, FAILED, and gradiocoach.py line 1035
accepts exactly ACTIVE), the post-loop check of optimized_app.py lines
1138-1142 demands the state name SUCCEEDED, so the code raises a generic
Exception instead of passing the ready handle to the generation stage; the
handle is accepted only under the state name SUCCEEDED, which the service
never reports.  The other two conjuncts record that the timeout half of the
claim does hold: a status that never leaves PROCESSING raises the distinct
TimeoutError once elapsed time exceeds the 180 second ceiling, and a state
named SUCCEEDED would proceed to generation. -/
theorem video_ready_state_code_bug :
    analyzeVideoPhase (fun k => if k < 2 then ("PROCESSING") else ("ACTIVE")) =
      .genericError (("Video processing failed with state: ACTIVE")) ∧
    analyzeVideoPhase (fun _ => ("PROCESSING")) = .timeoutError ∧
    analyzeVideoPhase (fun k => if k < 2 then ("PROCESSING") else ("SUCCEEDED")) =
      .generated (("SUCCEEDED")) := by
  refine ⟨by decide, by decide, by decide⟩

/-- C2: a function wrapped by `safe_api_call` that raises a
rate-limit-classified error (a GoogleAPIError whose text contains "quota"
or "rate") on attempts 1 and 2 and succeeds on attempt 3 yields the
attempt-3 result, after exactly three invocations, with total backoff sleep
equal to `API_RETRY_DELAY * 1 + API_RETRY_DELAY * 2` (2s + 4s = 6s). -/
theorem safe_api_call_rate_limit_retry (α : Type)
    (func : Nat → Except PyError α) (e0 e1 : PyError) (v : α)
    (h0 : func 0 = .error e0) (hr0 : isRateLimitError e0 = true)
    (h1 : func 1 = .error e1) (hr1 : isRateLimitError e1 = true)
    (h2 : func 2 = .ok v) :
    safe_api_call func =
      ⟨.ok v, API_RETRY_DELAY * 1 + API_RETRY_DELAY * 2, 3⟩ := by
  simp only [safe_api_call, API_MAX_RETRIES, safeApiLoop, h0, h1, h2, hr0, hr1]
  norm_num [API_MAX_RETRIES, API_RETRY_DELAY]

/-- Witness for C2 at a concrete wrapped function. -/
theorem safe_api_call_rate_limit_retry_witness :
    safe_api_call (fun n =>
        if n = 0 then .error ⟨true, ("quota exceeded")⟩
        else if n = 1 then .error ⟨true, ("Rate limit hit")⟩
        else .ok 7) =
      ⟨.ok 7, API_RETRY_DELAY * 1 + API_RETRY_DELAY * 2, 3⟩ :=
  safe_api_call_rate_limit_retry Nat _
    ⟨true, ("quota exceeded")⟩ ⟨true, ("Rate limit hit")⟩ 7
    rfl (by decide) rfl (by decide) rfl

/-- C3: a function wrapped by `safe_api_call` that raises an error not
classified as rate-limit is not retried: the exception propagates with zero
backoff sleep after exactly one invocation of the wrapped function. -/
theorem safe_api_call_no_retry_on_other_error (α : Type)
    (func : Nat → Except PyError α) (e : PyError)
    (h0 : func 0 = .error e) (hnr : isRateLimitError e = false) :
    safe_api_call func = ⟨.raised e, 0, 1⟩ := by
  simp only [safe_api_call, API_MAX_RETRIES, safeApiLoop, h0, hnr]
  norm_num

/-- Witness for C3 at a concrete wrapped function raising a non-Google
error. -/
theorem safe_api_call_no_retry_on_other_error_witness :
    safe_api_call (fun _ =>
        (.error ⟨false, ("ValueError: bad input")⟩ : Except PyError Nat)) =
      ⟨.raised ⟨false, ("ValueError: bad input")⟩, 0, 1⟩ :=
  safe_api_call_no_retry_on_other_error Nat _
    ⟨false, ("ValueError: bad input")⟩ rfl (by decide)

/-- C4: running the analysis a second time with the same video path and
query while the first result is stored is a cache hit: the stored result is
returned, the hit counter is incremented, and the remote
upload/poll/generation pipeline is not entered a second time. -/
theorem second_run_same_fingerprint_cache_hit
    (s0 : WrestlingSession) (vp q r r2 : String) (hr : r ≠ ("")) :
    (clickAnalyze (clickAnalyze s0 vp q r).1 vp q r2).2.fromCache = true ∧
    (clickAnalyze (clickAnalyze s0 vp q r).1 vp q r2).2.remoteCalls = 0 ∧
    (clickAnalyze (clickAnalyze s0 vp q r).1 vp q r2).2.result =
      (clickAnalyze s0 vp q r).2.result ∧
    (clickAnalyze (clickAnalyze s0 vp q r).1 vp q r2).1.cache_hits =
      (clickAnalyze s0 vp q r).1.cache_hits + 1 := by
  have hcid := clickAnalyze_cache_id s0 vp q r
  have hlq := clickAnalyze_last_query s0 vp q r
  have hst := clickAnalyze_stores_result s0 vp q r
  have hne := clickAnalyze_result_nonempty s0 vp q r hr
  have htr : pyTruthyOptStr (clickAnalyze s0 vp q r).1.analysis_result = true := by
    rw [hst]
    simp [pyTruthyOptStr, hne]
  obtain ⟨hrun, hhits⟩ :=
    clickAnalyze_hit (clickAnalyze s0 vp q r).1 vp q r2 hcid hlq htr
  refine ⟨?_, ?_, ?_, hhits⟩
  · rw [hrun]
  · rw [hrun]
  · rw [hrun]
    simp [hst]

/-- Witness for C4 at a concrete session and inputs. -/
theorem second_run_same_fingerprint_cache_hit_witness :
    (clickAnalyze (clickAnalyze initSession ("match.mp4") ("double leg")
        ("the report")).1 ("match.mp4") ("double leg") ("other")).2.fromCache = true ∧
    (clickAnalyze (clickAnalyze initSession ("match.mp4") ("double leg")
        ("the report")).1 ("match.mp4") ("double leg") ("other")).2.remoteCalls = 0 ∧
    (clickAnalyze (clickAnalyze initSession ("match.mp4") ("double leg")
        ("the report")).1 ("match.mp4") ("double leg") ("other")).2.result =
      (clickAnalyze initSession ("match.mp4") ("double leg") ("the report")).2.result ∧
    (clickAnalyze (clickAnalyze initSession ("match.mp4") ("double leg")
        ("the report")).1 ("match.mp4") ("double leg") ("other")).1.cache_hits =
      (clickAnalyze initSession ("match.mp4") ("double leg") ("the report")).1.cache_hits + 1 :=
  second_run_same_fingerprint_cache_hit initSession
    ("match.mp4") ("double leg") ("the report") ("other") (by decide)

/-- C8 counterexample: the cache is a single slot, not an accumulating
map.  Starting from the initial session, storing a result for fingerprint
v1_q1, then for fingerprint v2_q2, a third request with fingerprint v1_q1
is a cache miss that re-enters the remote pipeline and returns the freshly
computed text, not the text originally stored for v1_q1. -/
theorem cache_eviction_counterexample :
    (clickAnalyze (clickAnalyze (clickAnalyze initSession ("v1") ("q1")
        ("result one")).1 ("v2") ("q2") ("result two")).1 ("v1") ("q1")
        ("result three")).2 = ⟨("result three"), false, 1⟩ ∧
    ("result three") ≠ ("result one") := by
  refine ⟨by decide, by decide⟩

/-- C8 as amended: the fingerprint cache holds at most one live entry.
After a result is stored for a second, distinct fingerprint, a request with
the first fingerprint is a cache miss that recomputes through the remote
pipeline; storing a new entry evicts the existing one. -/
theorem single_slot_cache_eviction (s0 : WrestlingSession)
    (v1 q1 r1 v2 q2 r2 r3 : String)
    (hkey : cache_key v1 q1 ≠ cache_key v2 q2) :
    (clickAnalyze (clickAnalyze (clickAnalyze s0 v1 q1 r1).1 v2 q2 r2).1
        v1 q1 r3).2 = ⟨r3, false, 1⟩ := by
  apply clickAnalyze_miss_of_cache_id
  rw [clickAnalyze_cache_id]
  simp
  exact fun h => hkey h.symm

/-- Witness for the amended C8 at concrete distinct fingerprints. -/
theorem single_slot_cache_eviction_witness :
    (clickAnalyze (clickAnalyze (clickAnalyze initSession ("a.mp4") ("q")
        ("first")).1 ("b.mp4") ("p") ("second")).1 ("a.mp4") ("q")
        ("third")).2 = ⟨("third"), false, 1⟩ :=
  single_slot_cache_eviction initSession ("a.mp4") ("q") ("first")
    ("b.mp4") ("p") ("second") ("third") (by decide)

/-- C10: the fingerprint of the hardened variant is the plain
underscore-joined concatenation of path and query, hence not injective:
the distinct input pairs (a_b, c) and (a, b_c) produce the same cache
key. -/
theorem cache_key_not_injective :
    cache_key ("a_b") ("c") = cache_key ("a") ("b_c") ∧
    ((("a_b") : String), (("c") : String)) ≠ ((("a") : String), (("b_c") : String)) := by
  refine ⟨by decide, by decide⟩

end OptimizedApp

namespace GradioCoach

/-- The backtick character, written via its code point. -/
def backtick : Char := Char.ofNat 96

/-- The opening curly brace character, written via its code point. -/
def lbrace : Char := Char.ofNat 123

/-- The closing curly brace character, written via its code point. -/
def rbrace : Char := Char.ofNat 125

/-- The character class of the regex token `\s` restricted to ASCII
(space, tab, newline, carriage return, vertical tab, form feed); the
Unicode extension of Python `\s` is outside the modelled input range. -/
def isPySpace (c : Char) : Bool :=
  c == ' ' || c == '\t' || c == '\n' || c == '\r' ||
    c == Char.ofNat 11 || c == Char.ofNat 12

/-- The literal part of the regex branch used in
`re.sub` at gradiocoach.py line 609: three backticks followed by json. -/
def fenceOpen : List Char := [backtick, backtick, backtick, 'j', 's', 'o', 'n']

/-- The literal of the closing-fence regex branch: three backticks. -/
def fenceClose : List Char := [backtick, backtick, backtick]

/-- Whether a scan position is a line end for a MULTILINE `$` anchor: end
of input or just before a newline. -/
def lineEndAt : List Char → Bool
  | [] => true
  | c :: _ => c == '\n'

/-- Whether the consumed whitespace run leaves the scan at a line start
(MULTILINE `^` matches right after a newline). -/
def endsWithNewline (ws : List Char) : Bool :=
  match ws.getLast? with
  | some c => c == '\n'
  | none => false

/-- Attempt of the second regex branch at the current scan position:
a maximal whitespace run, then the closing fence, anchored at a line end.
Because backticks are not whitespace, the backtracking of the greedy run
can only succeed with the maximal run, so this function is exact. -/
def matchCloseFence (cs : List Char) : Option (List Char) :=
  let rest := cs.dropWhile isPySpace
  if fenceClose.isPrefixOf rest && lineEndAt (rest.drop fenceClose.length) then
    some (rest.drop fenceClose.length)
  else none

/-- Left-to-right non-overlapping substitution semantics of
`re.sub` with the alternation of the opening branch (line start, opening
fence, trailing whitespace run) and the closing branch (whitespace run,
closing fence, line end), both replaced by the empty string, with the
MULTILINE and DOTALL flags (gradiocoach.py line 609).  The boolean tracks
whether the current position is a line start in the original text; the
fuel only bounds the recursion and exceeds the input length at the entry
point, so the fuel-zero branch is unreachable. -/
def subAux : Nat → Bool → List Char → List Char
  | 0, _, cs => cs
  | fuel + 1, atStart, cs =>
    match cs with
    | [] => []
    | c :: rest =>
      if atStart && fenceOpen.isPrefixOf (c :: rest) then
        subAux fuel
          (endsWithNewline (((c :: rest).drop fenceOpen.length).takeWhile isPySpace))
          (((c :: rest).drop fenceOpen.length).dropWhile isPySpace)
      else
        match matchCloseFence (c :: rest) with
        | some rem => subAux fuel false rem
        | none => c :: subAux fuel (c == '\n') rest

/-- Python `str.strip()` over the same ASCII whitespace class. -/
def pyStrip (s : String) : String :=
  String.mk (((s.toList.dropWhile isPySpace).reverse.dropWhile isPySpace).reverse)

/-- The fence-stripping of `run_stage2_extraction`
(gradiocoach.py line 609): the regex substitution followed by `.strip()`. -/
def cleanFences (raw : String) : String :=
  pyStrip (String.mk (subAux (raw.toList.length + 1) true raw.toList))

/-- The fallback recovery of `run_stage2_extraction`
(gradiocoach.py line 636): `re.search` for an opening brace, anything, a
closing brace, with DOTALL; the leftmost match runs from the first opening
brace to the last closing brace after it, and fails when no such pair
exists. -/
def extractBraces (s : String) : Option String :=
  match s.toList.dropWhile (fun c => !(c == lbrace)) with
  | [] => none
  | c :: tail =>
    let upto := (tail.reverse.dropWhile (fun c => !(c == rbrace))).reverse
    if upto.isEmpty then none else some (String.mk (c :: upto))

/-- JSON values as produced by the Python json module.  Numbers are
modelled as integers: the claims under verification depend only on list
lengths, key lookups and on which values fail numeric coercion, never on
fractional values. -/
inductive JValue where
  | null
  | bool (b : Bool)
  | num (n : Int)
  | str (s : String)
  | arr (elems : List JValue)
  | obj (fields : List (String × JValue))

/-- Python dict lookup `d.get(k)` over the field list of an object. -/
def jLookup (fields : List (String × JValue)) (k : String) : Option JValue :=
  match fields.find? (fun p => p.1 == k) with
  | some p => some p.2
  | none => none

/-- The four chart keys validated by Stage 2 and rendered by
`create_pitcher_report`. -/
def chart_keys : List String := [("skills"), ("power"), ("mocap"), ("mobility")]

/-- The per-chart validation condition of `run_stage2_extraction`
(gradiocoach.py lines 620-627): `num_axes` is an int, `values` and
`labels` are lists whose lengths equal it.  In the source a failure only
emits `logging.warning`; it changes no data. -/
def stage2ChartValid : JValue → Bool
  | .obj fields =>
    match jLookup fields ("num_axes"), jLookup fields ("values"),
          jLookup fields ("labels") with
    | some (.num n), some (.arr vs), some (.arr ls) =>
      ((vs.length : Int) == n) && ((ls.length : Int) == n)
    | _, _, _ => false
  | _ => false

/-- `run_stage2_extraction(markdown_report)` from gradiocoach.py lines
575-652, with the two external effects parametrised: `raw_response` is the
text of the Gemini response (an empty text makes the function return
`None`), and `parse` is `json.loads` restricted to returning an optional
value.  The code path: reject an empty or whitespace-only report, reject
an empty response, strip fences, parse; on parse failure search for a
brace-delimited substring and parse that; on any remaining failure return
`None`.  The validation loop over the chart keys only logs warnings and
the parsed object is returned unchanged. -/
def run_stage2_extraction (parse : String → Option JValue)
    (markdown_report raw_response : String) : Option JValue :=
  if pyStrip markdown_report = ("") then none
  else if raw_response = ("") then none
  else
    match parse (cleanFences raw_response) with
    | some structured => some structured
    | none =>
      match extractBraces (cleanFences raw_response) with
      | some candidate => parse candidate
      | none => none

/-- What the caller `run_analysis_interface` shows after Stage 2
(gradiocoach.py lines 1133-1141): the raw Stage 1 Markdown when extraction
returned a falsy value, the structured data otherwise. -/
inductive Stage2Display where
  | rawFallback (markdown : String)
  | structuredReport (data : JValue)

/-- Python truthiness of a decoded JSON value, as used by the caller check
`if not structured_analysis_data`. -/
def pyTruthyJ : JValue → Bool
  | .null => false
  | .bool b => b
  | .num n => n != 0
  | .str s => s != ("")
  | .arr elems => !elems.isEmpty
  | .obj fields => !fields.isEmpty

/-- The Stage 2 dispatch of `run_analysis_interface`: run the extraction,
then fall back to the raw Stage 1 Markdown when it produced nothing
truthy. -/
def dispatch_stage2 (parse : String → Option JValue)
    (markdown_report raw_response : String) : Stage2Display :=
  match run_stage2_extraction parse markdown_report raw_response with
  | none => .rawFallback markdown_report
  | some d =>
    if pyTruthyJ d then .structuredReport d else .rawFallback markdown_report

/-- The default chart value of `create_pitcher_report`
(gradiocoach.py line 667): `default_value = 50.0`, the midpoint of the
0-100 scale, modelled as the integer 50. -/
def default_value : Int := 50

/-- One chart the rendering keeps: key, display title, coerced values,
stringified labels, axis count. -/
structure ChartData where
  key : String
  title : String
  values : List Int
  labels : List String
  num_axes : Int
deriving DecidableEq

/-- Python `str()` of a decoded JSON value; container renderings are
abstracted, the claims never depend on them. -/
def pyStr : JValue → String
  | .null => ("None")
  | .bool true => ("True")
  | .bool false => ("False")
  | .num n => toString n
  | .str s => s
  | .arr _ => ("[...]")
  | .obj _ => ("\x7b...\x7d")

/-- Python `str.capitalize()`: first character upper case, rest lower. -/
def pyCapitalize (s : String) : String :=
  match s.toList with
  | [] => ("")
  | c :: rest => String.mk (c.toUpper :: rest.map Char.toLower)

/-- Value of a list of decimal digits, most significant first. -/
def digitsToNat : List Char → Nat → Nat
  | [], acc => acc
  | c :: t, acc => digitsToNat t (acc * 10 + (c.toNat - 48))

/-- Python `float(string)` restricted to optionally signed decimal integer
text with surrounding whitespace; other numeric spellings are outside the
modelled input range. -/
def pyFloatOfString (s : String) : Option Int :=
  match ((s.toList.dropWhile isPySpace).reverse.dropWhile isPySpace).reverse with
  | '-' :: ds =>
    if !ds.isEmpty && ds.all Char.isDigit then some (-(digitsToNat ds 0)) else none
  | '+' :: ds =>
    if !ds.isEmpty && ds.all Char.isDigit then some (digitsToNat ds 0) else none
  | ds =>
    if !ds.isEmpty && ds.all Char.isDigit then some (digitsToNat ds 0) else none

/-- Python `float(v)` on a decoded JSON value, as an optional integer:
numbers and booleans convert, decimal integer strings convert, `None`,
lists and dicts raise (modelled as `none`); fractional literals are
outside the modelled input range. -/
def pyFloatOpt : JValue → Option Int
  | .num n => some n
  | .bool b => some (if b then 1 else 0)
  | .str s => pyFloatOfString s
  | _ => none

/-- The list-comprehension over `data["values"]` in `create_pitcher_report`
(gradiocoach.py lines 677-679): `try: float(v) except: default_value`. -/
def coerceValue (v : JValue) : Int :=
  (pyFloatOpt v).getD default_value

/-- The per-chart acceptance of `create_pitcher_report`
(gradiocoach.py lines 670-687): the entry must be a dict with list-valued
`values` and `labels`, an integer positive `num_axes`, and both list
lengths equal to it; an accepted entry is turned into a `ChartData` with
coerced values and stringified labels, any other entry is skipped with a
logged warning. -/
def buildChart (key : String) (data : JValue) : Option ChartData :=
  match data with
  | .obj fields =>
    match jLookup fields ("values"), jLookup fields ("labels"),
          jLookup fields ("num_axes") with
    | some (.arr vs), some (.arr ls), some (.num n) =>
      if 0 < n ∧ (vs.length : Int) = n ∧ (ls.length : Int) = n then
        some { key := key,
               title := pyStr ((jLookup fields ("title")).getD
                 (.str (pyCapitalize key))),
               values := vs.map coerceValue,
               labels := ls.map pyStr,
               num_axes := n }
      else none
    | _, _, _ => none
  | _ => none

/-- The `valid_chart_data` accumulation loop of `create_pitcher_report`
(gradiocoach.py lines 669-687) over the field list of the analysis
object. -/
def collectValidCharts (fields : List (String × JValue)) : List ChartData :=
  chart_keys.filterMap (fun k => (jLookup fields k).bind (buildChart k))


/-- The substitution scan maps the empty text to the empty text. -/
theorem subAux_nil (fuel : Nat) (b : Bool) : subAux fuel b [] = [] := by
  cases fuel <;> rfl

/-- A text starting with a non-backtick character cannot start the opening
fence. -/
theorem fenceOpen_not_lead {c : Char} (rest : List Char) (hc : c ≠ backtick) :
    fenceOpen.isPrefixOf (c :: rest) = false := by
  simp only [fenceOpen, List.isPrefixOf, Bool.and_eq_false_iff]
  left
  simpa [beq_iff_eq] using fun h => hc h.symm

/-- A text starting with a non-backtick character cannot start the closing
fence. -/
theorem fenceClose_not_lead {c : Char} (rest : List Char) (hc : c ≠ backtick) :
    fenceClose.isPrefixOf (c :: rest) = false := by
  simp only [fenceClose, List.isPrefixOf, Bool.and_eq_false_iff]
  left
  simpa [beq_iff_eq] using fun h => hc h.symm

/-- The closing-fence branch never matches inside backtick-free text. -/
theorem matchCloseFence_none (l : List Char) (hb : ∀ c ∈ l, c ≠ backtick) :
    matchCloseFence l = none := by
  unfold matchCloseFence
  cases hd : l.dropWhile isPySpace with
  | nil => simp [fenceClose]
  | cons d t =>
    have hdm : d ∈ l :=
      (List.dropWhile_sublist isPySpace).mem (hd ▸ List.mem_cons_self d t)
    simp [fenceClose_not_lead t (hb d hdm)]

/-- The substitution scan is the identity on backtick-free text. -/
theorem subAux_no_fence :
    ∀ (fuel : Nat) (l : List Char) (b : Bool),
      (∀ c ∈ l, c ≠ backtick) → l.length ≤ fuel → subAux fuel b l = l := by
  intro fuel
  induction fuel with
  | zero => intro l b hb hl; cases l <;> rfl
  | succ n ih =>
    intro l b hb hl
    cases l with
    | nil => rfl
    | cons c rest =>
      have hc : c ≠ backtick := hb c (List.mem_cons_self c rest)
      have hbr : ∀ x ∈ rest, x ≠ backtick := fun x hx => hb x (List.mem_cons_of_mem c hx)
      simp only [subAux, fenceOpen_not_lead rest hc, Bool.and_false, Bool.false_eq_true,
        if_false, matchCloseFence_none (c :: rest) hb]
      exact congrArg (c :: ·) (ih rest (c == '\n') hbr (by simpa using hl))

/-- Dropping leading whitespace from a list holding a non-whitespace
element leaves a non-empty list. -/
theorem dropWhile_ne_nil_of_mem {x : Char} :
    ∀ (l : List Char), x ∈ l → isPySpace x = false → l.dropWhile isPySpace ≠ [] := by
  intro l
  induction l with
  | nil => intro hx; cases hx
  | cons c t ih =>
    intro hx hpx
    by_cases hc : isPySpace c
    · have hxt : x ∈ t := by
        rcases List.mem_cons.mp hx with h | h
        · subst h; rw [hpx] at hc; cases hc
        · exact h
      rw [List.dropWhile_cons_of_pos hc]
      exact ih hxt hpx
    · rw [List.dropWhile_cons_of_neg hc]
      exact List.cons_ne_nil c t

/-- Dropping leading whitespace distributes over append when the left part
holds a non-whitespace element. -/
theorem dropWhile_append_of_mem {x : Char} (l r : List Char) (hx : x ∈ l)
    (hpx : isPySpace x = false) :
    (l ++ r).dropWhile isPySpace = l.dropWhile isPySpace ++ r := by
  rw [List.dropWhile_append]
  simp [List.isEmpty_iff, dropWhile_ne_nil_of_mem l hx hpx]

/-- The substitution scan removes a trailing newline-plus-closing-fence
after backtick-free text whose last character is not whitespace, and keeps
the text itself. -/
theorem subAux_strip_close :
    ∀ (fuel : Nat) (l : List Char) (b : Bool),
      (∀ c ∈ l, c ≠ backtick) →
      (∀ x, l.getLast? = some x → isPySpace x = false) →
      l.length + 2 ≤ fuel → subAux fuel b (l ++ '\n' :: fenceClose) = l := by
  intro fuel
  induction fuel with
  | zero => intro l b hb hlast hl; omega
  | succ n ih =>
    intro l b hb hlast hl
    cases l with
    | nil =>
      have h1 : fenceOpen.isPrefixOf ('\n' :: fenceClose) = false := by decide
      have h2 : matchCloseFence ('\n' :: fenceClose) = some [] := by decide
      simp only [List.nil_append, subAux, h1, Bool.and_false, Bool.false_eq_true, if_false, h2]
      exact subAux_nil n false
    | cons c rest =>
      have hc : c ≠ backtick := hb c (List.mem_cons_self c rest)
      have hbr : ∀ y ∈ rest, y ≠ backtick := fun y hy => hb y (List.mem_cons_of_mem c hy)
      have hnomatch : matchCloseFence (c :: (rest ++ '\n' :: fenceClose)) = none := by
        by_cases hcs : isPySpace c
        · cases rest with
          | nil =>
            have hcf : isPySpace c = false := hlast c (by simp)
            rw [hcf] at hcs
            cases hcs
          | cons d t =>
            obtain ⟨y, hy⟩ : ∃ y, (d :: t).getLast? = some y := by
              cases h : (d :: t).getLast? with
              | none => simp at h
              | some y => exact ⟨y, rfl⟩
            have hys : isPySpace y = false :=
              hlast y (by rw [List.getLast?_cons_cons]; exact hy)
            have hym : y ∈ (d :: t) := List.mem_of_mem_getLast? hy
            simp only [matchCloseFence, List.dropWhile_cons_of_pos hcs]
            rw [dropWhile_append_of_mem (d :: t) ('\n' :: fenceClose) hym hys]
            have hne := dropWhile_ne_nil_of_mem (d :: t) hym hys
            cases hdw : (d :: t).dropWhile isPySpace with
            | nil => exact absurd hdw hne
            | cons e es =>
              have hem : e ∈ (d :: t) :=
                (List.dropWhile_sublist isPySpace).mem (hdw ▸ List.mem_cons_self e es)
              have he : e ≠ backtick := hbr e hem
              simp [List.cons_append, fenceClose_not_lead _ he]
        · simp only [matchCloseFence, List.dropWhile_cons_of_neg hcs]
          simp [fenceClose_not_lead _ hc]
      have hlastr : ∀ x, rest.getLast? = some x → isPySpace x = false := by
        intro x hx
        cases rest with
        | nil => simp at hx
        | cons d t =>
          exact hlast x (by rw [List.getLast?_cons_cons]; exact hx)
      simp only [List.cons_append, subAux, fenceOpen_not_lead _ hc, Bool.and_false,
        Bool.false_eq_true, if_false, hnomatch]
      exact congrArg (c :: ·) (ih rest (c == '\n') hbr hlastr (by simp at hl; omega))

/-- When dropping leading whitespace changes nothing, the head is not
whitespace. -/
theorem dropWhile_cons_head_false {q : Char → Bool} {c : Char} {t : List Char}
    (h : List.dropWhile q (c :: t) = c :: t) : q c = false := by
  by_cases hc : q c
  · rw [List.dropWhile_cons_of_pos hc] at h
    have h1 : (t.dropWhile q).length ≤ t.length := (List.dropWhile_sublist q).length_le
    have h2 := congrArg List.length h
    simp at h2
    omega
  · simpa using hc

/-- A string fixed by `pyStrip` has no leading whitespace and no trailing
whitespace, stated through `dropWhile` on the character list and its
reverse. -/
theorem stripped_split (p : String) (hs : pyStrip p = p) :
    p.toList.dropWhile isPySpace = p.toList ∧
    p.toList.reverse.dropWhile isPySpace = p.toList.reverse := by
  have hd : ((p.toList.dropWhile isPySpace).reverse.dropWhile isPySpace).reverse
      = p.toList := congrArg String.data hs
  have h1 : (((p.toList.dropWhile isPySpace).reverse.dropWhile isPySpace).reverse).length
      = p.toList.length := congrArg List.length hd
  have h2 : ((p.toList.dropWhile isPySpace).reverse.dropWhile isPySpace).length
      ≤ (p.toList.dropWhile isPySpace).length := by
    have := (List.dropWhile_sublist (l := (p.toList.dropWhile isPySpace).reverse)
      isPySpace).length_le
    simpa using this
  have h3 : (p.toList.dropWhile isPySpace).length ≤ p.toList.length :=
    (List.dropWhile_sublist isPySpace).length_le
  have hMlen : (p.toList.dropWhile isPySpace).length = p.toList.length := by
    rw [List.length_reverse] at h1
    omega
  have hM : p.toList.dropWhile isPySpace = p.toList :=
    (List.dropWhile_sublist isPySpace).eq_of_length hMlen
  rw [hM] at hd
  have hR : p.toList.reverse.dropWhile isPySpace = p.toList.reverse := by
    have := congrArg List.reverse hd
    simpa using this
  exact ⟨hM, hR⟩

/-- The last character of a string fixed by `pyStrip` is not whitespace. -/
theorem stripped_getLast (p : String) (hs : pyStrip p = p) :
    ∀ x, p.toList.getLast? = some x → isPySpace x = false := by
  intro x hx
  have hR := (stripped_split p hs).2
  have hhead : p.toList.reverse.head? = some x := by
    rw [List.head?_reverse]
    exact hx
  cases hrev : p.toList.reverse with
  | nil => rw [hrev] at hhead; cases hhead
  | cons d t =>
    rw [hrev] at hhead hR
    have hd : d = x := by
      simp at hhead
      exact hhead
    subst hd
    exact dropWhile_cons_head_false hR

/-- Fence stripping is the identity on a backtick-free string already fixed
by `pyStrip`. -/
theorem cleanFences_bare (p : String) (hb : ∀ c ∈ p.toList, c ≠ backtick)
    (hs : pyStrip p = p) : cleanFences p = p := by
  unfold cleanFences
  rw [subAux_no_fence (p.toList.length + 1) p.toList true hb (Nat.le_succ _)]
  have hmk : String.mk p.toList = p := by cases p; rfl
  rw [hmk, hs]

/-- One-step unfolding equation of the substitution scan on a non-empty
text. -/
theorem subAux_succ_cons (fuel : Nat) (atStart : Bool) (c : Char) (rest : List Char) :
    subAux (fuel + 1) atStart (c :: rest) =
      if atStart && fenceOpen.isPrefixOf (c :: rest) then
        subAux fuel
          (endsWithNewline (((c :: rest).drop fenceOpen.length).takeWhile isPySpace))
          (((c :: rest).drop fenceOpen.length).dropWhile isPySpace)
      else
        match matchCloseFence (c :: rest) with
        | some rem => subAux fuel false rem
        | none => c :: subAux fuel (c == '\n') rest := rfl

/-- Fence stripping removes a canonical code-fence wrapping and returns the
enclosed backtick-free stripped payload unchanged. -/
theorem cleanFences_fenced (p : String) (hb : ∀ c ∈ p.toList, c ≠ backtick)
    (hs : pyStrip p = p) :
    cleanFences (("```json\n") ++ p ++ ("\n```")) = p := by
  cases hpl : p.toList with
  | nil =>
    have hp : p = ("") := by
      cases p with
      | mk d =>
        simp only [String.toList] at hpl
        simp [hpl]
    rw [hp]
    decide
  | cons c t =>
    have hM := (stripped_split p hs).1
    have hhead : isPySpace c = false := by
      rw [hpl] at hM
      exact dropWhile_cons_head_false hM
    have hlast := stripped_getLast p hs
    unfold cleanFences
    have hSl : ((("```json\n") ++ p ++ ("\n```")) : String).toList
        = backtick :: backtick :: backtick :: 'j' :: 's' :: 'o' :: 'n' :: '\n'
          :: (p.toList ++ '\n' :: fenceClose) := by
      have h1 : ((("```json\n") ++ p ++ ("\n```")) : String).toList
          = (("```json\n") : String).toList ++ p.toList ++ (("\n```") : String).toList := rfl
      rw [h1]
      have h2 : (("```json\n") : String).toList
          = [backtick, backtick, backtick, 'j', 's', 'o', 'n', '\n'] := by decide
      have h3 : (("\n```") : String).toList = '\n' :: fenceClose := by decide
      rw [h2, h3]
      simp
    rw [hSl]
    have hpre : fenceOpen.isPrefixOf (backtick :: backtick :: backtick :: 'j' :: 's'
        :: 'o' :: 'n' :: '\n' :: (p.toList ++ '\n' :: fenceClose)) = true := by
      simp [fenceOpen, List.isPrefixOf]
    rw [subAux_succ_cons, hpre, Bool.and_self, if_pos rfl]
    have hdrop : (backtick :: backtick :: backtick :: 'j' :: 's' :: 'o' :: 'n' :: '\n'
        :: (p.toList ++ '\n' :: fenceClose)).drop fenceOpen.length
        = '\n' :: (p.toList ++ '\n' :: fenceClose) := rfl
    rw [hdrop]
    have hdropw : ('\n' :: (p.toList ++ '\n' :: fenceClose)).dropWhile isPySpace
        = p.toList ++ '\n' :: fenceClose := by
      rw [List.dropWhile_cons_of_pos (by decide), hpl, List.cons_append,
        List.dropWhile_cons_of_neg (by simp [hhead]), ← List.cons_append, ← hpl]
    rw [hdropw]
    rw [subAux_strip_close _ p.toList _ hb hlast (by simp [hpl, fenceClose])]
    have hmk : String.mk p.toList = p := by cases p; rfl
    rw [hmk, hs]

/-- C5: when the Stage 2 response is not parseable even after the fallback
of extracting the first-to-last brace-delimited substring, the extraction
returns `none` instead of raising, and the caller displays the raw Stage 1
Markdown report as the fallback output. -/
theorem stage2_parse_failure_returns_absent (parse : String → Option JValue)
    (md raw : String) (hmd : pyStrip md ≠ ("")) (hraw : raw ≠ (""))
    (hp : parse (cleanFences raw) = none)
    (hfb : ∀ c, extractBraces (cleanFences raw) = some c → parse c = none) :
    run_stage2_extraction parse md raw = none ∧
    dispatch_stage2 parse md raw = .rawFallback md := by
  have h1 : run_stage2_extraction parse md raw = none := by
    unfold run_stage2_extraction
    rw [if_neg hmd, if_neg hraw, hp]
    cases hx : extractBraces (cleanFences raw) with
    | none => rfl
    | some c => exact hfb c hx
  refine ⟨h1, ?_⟩
  unfold dispatch_stage2
  rw [h1]

/-- Witness for C5 at a concrete non-JSON prose response. -/
theorem stage2_parse_failure_witness :
    run_stage2_extraction (fun _ => none) ("# Stage 1 Report")
      ("I cannot produce structured output for this video.") = none ∧
    dispatch_stage2 (fun _ => none) ("# Stage 1 Report")
      ("I cannot produce structured output for this video.") =
      .rawFallback ("# Stage 1 Report") :=
  stage2_parse_failure_returns_absent (fun _ => none) ("# Stage 1 Report")
    ("I cannot produce structured output for this video.")
    (by decide) (by decide) rfl (fun c _ => rfl)

/-- C6: a metric group whose value or label list length differs from the
declared axis count only draws a logged warning; the extraction still
returns the parsed object unchanged and non-absent, so every other group it
holds, the valid ones included, is still present; the mismatch never makes
the extraction return `none` or raise. -/
theorem stage2_length_mismatch_nonfatal (parse : String → Option JValue)
    (md raw : String) (d : JValue) (fields : List (String × JValue))
    (k : String) (g : JValue)
    (hmd : pyStrip md ≠ ("")) (hraw : raw ≠ (""))
    (hp : parse (cleanFences raw) = some d) (hobj : d = .obj fields)
    (hk : k ∈ chart_keys) (hg : jLookup fields k = some g)
    (hbad : stage2ChartValid g = false) :
    run_stage2_extraction parse md raw = some d ∧
    ∀ k2 g2, jLookup fields k2 = some g2 →
      ∃ fs, run_stage2_extraction parse md raw = some (.obj fs) ∧
        jLookup fs k2 = some g2 := by
  have h1 : run_stage2_extraction parse md raw = some d := by
    unfold run_stage2_extraction
    rw [if_neg hmd, if_neg hraw, hp]
  exact ⟨h1, fun k2 g2 hg2 => ⟨fields, by rw [h1, hobj], hg2⟩⟩

/-- A chart accepted by the rendering validation carries the key it was
built from. -/
theorem buildChart_key (k : String) (g : JValue) (ch : ChartData)
    (h : buildChart k g = some ch) : ch.key = k := by
  cases g <;> simp only [buildChart] at h
  case obj fields =>
    split at h
    · split at h
      · injection h with h2
        rw [← h2]
      · exact Option.noConfusion h
    · exact Option.noConfusion h
  all_goals exact Option.noConfusion h

/-- C9 as amended: the rendering does not discard the analysis as a whole
when a metric group fails shape validation, but it skips that group
entirely (no chart with its key is produced) rather than rendering it with
default values; every group passing validation is still rendered, and the
midpoint default 50 is substituted only for individual values inside a
shape-valid group that fail numeric coercion. -/
theorem invalid_group_skipped_valid_kept (fields : List (String × JValue))
    (k : String) (g : JValue) (hk : k ∈ chart_keys)
    (hg : jLookup fields k = some g) (hbad : buildChart k g = none) :
    (∀ ch ∈ collectValidCharts fields, ch.key ≠ k) ∧
    (∀ k2 g2 ch, k2 ∈ chart_keys → jLookup fields k2 = some g2 →
      buildChart k2 g2 = some ch → ch ∈ collectValidCharts fields) ∧
    (∀ v, pyFloatOpt v = none → coerceValue v = default_value) := by
  refine ⟨?_, ?_, ?_⟩
  · intro ch hch
    obtain ⟨a, ha, hfa⟩ := List.mem_filterMap.mp hch
    obtain ⟨g2, hg2, hb2⟩ := Option.bind_eq_some.mp hfa
    have hkey := buildChart_key a g2 ch hb2
    intro hcontra
    rw [hkey] at hcontra
    subst hcontra
    rw [hg] at hg2
    injection hg2 with hg3
    subst hg3
    rw [hbad] at hb2
    exact Option.noConfusion hb2
  · intro k2 g2 ch hk2 hg2 hb2
    exact List.mem_filterMap.mpr ⟨k2, hk2, by rw [hg2]; exact hb2⟩
  · intro v hv
    simp [coerceValue, hv]

/-- Metric group declaring five axes but carrying four values. -/
def exSkillsBad : JValue :=
  .obj [(("title"), .str ("Wrestling Skills")), (("num_axes"), .num 5),
    (("values"), .arr [.num 60, .num 70, .num 55, .num 40]),
    (("labels"), .arr [.str ("a"), .str ("b"), .str ("c"), .str ("d"), .str ("e")])]

/-- Fully valid metric group with three axes. -/
def exPowerGood : JValue :=
  .obj [(("num_axes"), .num 3),
    (("values"), .arr [.num 50, .num 60, .num 70]),
    (("labels"), .arr [.str ("x"), .str ("y"), .str ("z")])]

/-- Analysis object holding one shape-invalid and one valid group. -/
def exAnalysisFields : List (String × JValue) :=
  [(("skills"), exSkillsBad), (("power"), exPowerGood)]

/-- C9 counterexample: with a skills group declaring five axes but
carrying four values and a fully valid power group, the rendering data
selection of `create_pitcher_report` keeps only the power chart; no chart
for the skills group exists at all, so its values are not rendered with the
default 50 as the claim states. -/
theorem invalid_group_skipped_counterexample :
    collectValidCharts exAnalysisFields =
      [⟨("power"), ("Power"), [50, 60, 70], [("x"), ("y"), ("z")], 3⟩] ∧
    (collectValidCharts exAnalysisFields).all (fun ch => ch.key != ("skills")) = true ∧
    buildChart ("skills") exSkillsBad = none := by
  refine ⟨by decide, by decide, by decide⟩

/-- Witness for the amended C9 at the concrete analysis object. -/
theorem invalid_group_skipped_valid_kept_witness :
    ((⟨("power"), ("Power"), [50, 60, 70], [("x"), ("y"), ("z")], 3⟩ : ChartData) ∈
      collectValidCharts exAnalysisFields) ∧
    coerceValue JValue.null = default_value :=
  ⟨(invalid_group_skipped_valid_kept exAnalysisFields ("skills") exSkillsBad
      (by decide) rfl (by decide)).2.1 ("power") exPowerGood _ (by decide) rfl (by decide),
   (invalid_group_skipped_valid_kept exAnalysisFields ("skills") exSkillsBad
      (by decide) rfl (by decide)).2.2 JValue.null rfl⟩

/-- Stage 2 group with five declared axes but two values. -/
def exStage2Skills : JValue :=
  .obj [(("num_axes"), .num 5), (("values"), .arr [.num 60, .num 70]),
    (("labels"), .arr [.str ("a"), .str ("b"), .str ("c"), .str ("d"), .str ("e")])]

/-- Stage 2 parsed object holding a mismatched skills group and a valid
power group. -/
def exStage2Fields : List (String × JValue) :=
  [(("video_summary"), .str ("ok")), (("skills"), exStage2Skills),
   (("power"), .obj [(("num_axes"), .num 3),
     (("values"), .arr [.num 50, .num 60, .num 70]),
     (("labels"), .arr [.str ("x"), .str ("y"), .str ("z")])])]

/-- The Stage 2 parsed object as a JSON value. -/
def exStage2Data : JValue := .obj exStage2Fields

/-- Witness for C6 at a concrete parsed object whose skills group declares
five axes but carries two values. -/
theorem stage2_length_mismatch_witness :
    run_stage2_extraction (fun _ => some exStage2Data) ("# Report")
      ("raw model output") = some exStage2Data :=
  (stage2_length_mismatch_nonfatal (fun _ => some exStage2Data) ("# Report")
    ("raw model output") exStage2Data exStage2Fields ("skills") exStage2Skills
    (by decide) (by decide) rfl rfl (by decide) rfl (by decide)).1

/-- C7 counterexample: the fence-stripping transformation is not
idempotent on already-stripped text.  Stripping the text abc``` space ```
yields abc```, which is its own strip image, yet stripping it again yields
abc: the trailing-fence regex branch matches the freshly exposed trailing
backticks. -/
theorem fence_strip_not_idempotent :
    cleanFences ("abc``` ```") = ("abc```") ∧
    cleanFences (cleanFences ("abc``` ```")) = ("abc") ∧
    cleanFences (cleanFences ("abc``` ```")) ≠ cleanFences ("abc``` ```") := by
  refine ⟨by decide, by decide, by decide⟩

/-- C7 as amended: for every payload without backtick characters and fixed
by strip, the canonical code-fence wrapping and the bare payload strip to
the same text, the stripping is the identity on the bare payload, and hence
any parse function maps the two responses to identical structured
records. -/
theorem fence_strip_fenced_bare_agree (p : String)
    (hb : ∀ c ∈ p.toList, c ≠ backtick) (hs : pyStrip p = p) :
    cleanFences (("```json\n") ++ p ++ ("\n```")) = p ∧
    cleanFences p = p ∧
    ∀ parse : String → Option JValue,
      parse (cleanFences (("```json\n") ++ p ++ ("\n```"))) =
        parse (cleanFences p) := by
  have h1 := cleanFences_fenced p hb hs
  have h2 := cleanFences_bare p hb hs
  exact ⟨h1, h2, fun parse => by rw [h1, h2]⟩

/-- Witness for the amended C7 at a concrete JSON payload. -/
theorem fence_strip_fenced_bare_agree_witness :
    cleanFences (("```json\n") ++ ("\x7b\"level\": 42\x7d") ++ ("\n```")) =
      ("\x7b\"level\": 42\x7d") ∧
    cleanFences ("\x7b\"level\": 42\x7d") = ("\x7b\"level\": 42\x7d") :=
  ⟨(fence_strip_fenced_bare_agree ("\x7b\"level\": 42\x7d") (by decide) (by decide)).1,
   (fence_strip_fenced_bare_agree ("\x7b\"level\": 42\x7d") (by decide) (by decide)).2.1⟩

end GradioCoach
